import Mathlib

/-!
# Verification of the capture/storage/validation/submission pipeline

Shallow embedding of the browser-extension pipeline:
* `checkIfUrlRequiresAuthentication` (Authentication Probe),
* the Dedup & Capture Store (`storeUrlForLater`, `updateValidationStatus`,
  `removeResponse`, `removeAllResponses`, `validateAllPendingResponses`),
* the Batch Submission Client (`sendValidatedResponsesToServer`,
  `verifySampleResponses`),
* the session-mode toggles of the popup (`handleToggleCrawling`,
  `handleToggleAnalysis`) and its storage-warning logic,
* the size-ceiling step of `getRenderedHTML`.

Asynchronous storage I/O is modelled by explicit state passing over
`StoreState` (the two persisted tiers); network calls are modelled by
passing the outcome of the HTTP round-trip as an explicit parameter.
-/

namespace Csp

/-- JS truthiness of an optional string value: a missing value
(`undefined` / `null`) and the empty string are both falsy. -/
def optTruthy : Option String → Bool
  | none => false
  | some s => !(s == "")

/-- `needles.charsStartWith`: does the first list start with the second?
Used to implement JS substring containment. -/
def charsStartWith : List Char → List Char → Bool
  | _, [] => true
  | [], _ :: _ => false
  | a :: l, b :: m => a == b && charsStartWith l m

/-- JS `String.prototype.includes` on character lists: `charsInclude hay pat`
is true when `pat` occurs contiguously inside `hay` (case-sensitive). -/
def charsInclude : List Char → List Char → Bool
  | [], pat => pat.isEmpty
  | a :: l, pat => charsStartWith (a :: l) pat || charsInclude l pat

/-- JS `hay.includes(pat)` on strings (case-sensitive substring test). -/
def stringIncludes (hay pat : String) : Bool :=
  charsInclude hay.data pat.data

/-- Case-insensitive substring test, used only by the spec-side reference
definition of the Authentication Probe (the source performs a
case-sensitive test). -/
def stringIncludesCI (hay pat : String) : Bool :=
  charsInclude (hay.data.map Char.toLower) (pat.data.map Char.toLower)

/-- The HTTP response observed by the Authentication Probe:
status code, the `Location` header and the `WWW-Authenticate` header
(`none` when the header is absent). -/
structure ProbeResponse where
  status : Nat
  location : Option String
  wwwAuthenticate : Option String
deriving DecidableEq, Repr

/-- `Response.ok` of the fetch API: status in the range 200–299. -/
def responseOk (status : Nat) : Bool :=
  200 ≤ status && status ≤ 299

/-- The `Location`-header test of the probe, source lines 62–67 of
`BackgroundService.ts`: `location.includes('login') ||
location.includes('auth') || location.includes('signin')`. -/
def locationMatchesAuthMarker (loc : String) : Bool :=
  stringIncludes loc "login" || stringIncludes loc "auth" ||
    stringIncludes loc "signin"

/-- `BackgroundService.checkIfUrlRequiresAuthentication`, classification of a
received response (`BackgroundService.ts` lines 44–98): 401 and 403 are
auth-required; a 3xx whose truthy `Location` contains a login marker is
auth-required; a truthy `WWW-Authenticate` header is auth-required;
`response.ok` is not auth-required; everything else falls through to
auth-required. -/
def checkIfUrlRequiresAuthentication (r : ProbeResponse) : Bool :=
  if r.status == 401 then true
  else if r.status == 403 then true
  else if (300 ≤ r.status && r.status < 400) && optTruthy r.location &&
      locationMatchesAuthMarker (r.location.getD "") then true
  else if optTruthy r.wwwAuthenticate then true
  else if responseOk r.status then false
  else true

/-- The probe including its network-failure path: when `fetch` rejects
(no response at all, modelled by `none`), the surrounding catch block
returns `false` (`BackgroundService.ts` lines 99–103). -/
def probeClassify : Option ProbeResponse → Bool
  | none => false
  | some r => checkIfUrlRequiresAuthentication r

/-- Modelled from the spec: the reference classification of §4.4 of the
spec, against which the source probe is compared. Requires auth exactly
when: status 401/403; or a 3xx whose `Location` contains `login`, `auth`
or `signin` case-insensitively; or a `WWW-Authenticate` header is present;
or the status is any other non-2xx/non-3xx. Network failure is
not-requiring-auth. -/
def specProbeClassify : Option ProbeResponse → Bool
  | none => false
  | some r =>
    r.status == 401 || r.status == 403 ||
    ((300 ≤ r.status && r.status < 400) &&
      (match r.location with
       | some loc => stringIncludesCI loc "login" ||
           stringIncludesCI loc "auth" || stringIncludesCI loc "signin"
       | none => false)) ||
    r.wwwAuthenticate.isSome ||
    (!(200 ≤ r.status && r.status < 300) && !(300 ≤ r.status && r.status < 400))

/-- Record kind: the `type` field of `ScrapeResponse` (`'url' | 'html'`). -/
inductive RespType
  | url
  | html
deriving DecidableEq, Repr

/-- The `validationStatus` enum (`'pending' | 'validated' | 'invalid'`). -/
inductive ValidationStatus
  | pending
  | validated
  | invalid
deriving DecidableEq, Repr

/-- The `ScrapeResponse` record of `BackgroundService.ts`. The
`validationStatus` and `html` fields are optional in the source interface
and are modelled with `Option`. -/
structure ScrapeResponse where
  url : String
  type : RespType
  validationStatus : Option ValidationStatus
  html : Option String
deriving DecidableEq, Repr

/-- The persisted record set: `storedResponses` is the compact (sync)
tier, `htmlResponses` the bulk (local) tier. -/
structure StoreState where
  storedResponses : List ScrapeResponse
  htmlResponses : List ScrapeResponse
deriving DecidableEq, Repr

/-- `BackgroundService.getStoredResponses`: merge of both tiers, sync
tier first (`[...urlResponses, ...htmlResponses]`). -/
def getStoredResponses (st : StoreState) : List ScrapeResponse :=
  st.storedResponses ++ st.htmlResponses

/-- `BackgroundService.storeResponse`: an `'html'`-typed record with a
truthy `html` payload is appended to the bulk tier, anything else to the
compact tier. -/
def storeResponse (st : StoreState) (r : ScrapeResponse) : StoreState :=
  if r.type = RespType.html ∧ optTruthy r.html then
    { st with htmlResponses := st.htmlResponses ++ [r] }
  else
    { st with storedResponses := st.storedResponses ++ [r] }

/-- The persisted session flags (keys `urlTrackingEnabled`,
`crawlingMode`, `analysisMode`, `forceHtmlStorage`, `prompt`). -/
structure SessionState where
  urlTrackingEnabled : Bool
  crawlingMode : Bool
  analysisMode : Bool
  forceHtmlStorage : Bool
  prompt : String
deriving DecidableEq, Repr

/-- The object returned by `storeUrlForLater`. The source object carries
no `forceHtmlCapture` key, so the content script's read of that key is
always undefined; the field is modelled explicitly and is `false` at
every construction site, mirroring the falsy read. -/
structure StoreUrlResult where
  success : Bool
  requiresAuth : Bool
  forceHtmlCapture : Bool
  error : Option String
deriving DecidableEq, Repr

/-- `BackgroundService.storeUrlForLater` (admission). The probe's network
round-trip is supplied as the `probe` parameter; it is consulted only
when `html` is falsy, as in `!html && (await
this.checkIfUrlRequiresAuthentication(url))`. Order of checks as in the
source: tracking gate, auth gate, dedup check, then record creation. -/
def storeUrlForLater (sess : SessionState) (st : StoreState) (url : String)
    (html : Option String) (probe : Option ProbeResponse) :
    StoreState × StoreUrlResult :=
  if !sess.urlTrackingEnabled then
    (st, ⟨false, false, false, some "URL tracking is disabled"⟩)
  else if !optTruthy html && probeClassify probe then
    (st, ⟨false, true, false, some "URL requires authentication"⟩)
  else if (getStoredResponses st).any (fun r => r.url == url) then
    (st, ⟨true, false, false, none⟩)
  else
    let scrapeResponse : ScrapeResponse :=
      { url := url
        type := if optTruthy html then RespType.html else RespType.url
        validationStatus := some ValidationStatus.pending
        html := html }
    (storeResponse st scrapeResponse, ⟨true, false, false, none⟩)

/-- What the content script does with an admission result
(`content/index.ts` lines 68–79): on success, nothing; otherwise a
render capture is performed when `response.requiresAuth ||
response.forceHtmlCapture` is truthy. -/
inductive ContentAction
  | noCapture
  | captureHtml
deriving DecidableEq, Repr

/-- `handleUrlChange`'s reaction to the background's admission result. -/
def handleUrlChangeAction (res : StoreUrlResult) : ContentAction :=
  if res.success then ContentAction.noCapture
  else if res.requiresAuth || res.forceHtmlCapture then ContentAction.captureHtml
  else ContentAction.noCapture

/-- The per-record arrow function of `updateValidationStatus`:
`response.url === responseUrl ? { ...response, validationStatus } :
response`. -/
def applyStatus (responseUrl : String) (validationStatus : ValidationStatus)
    (r : ScrapeResponse) : ScrapeResponse :=
  if r.url == responseUrl then { r with validationStatus := some validationStatus } else r

/-- `BackgroundService.updateValidationStatus`: maps both tiers,
replacing the status of every record whose url matches; each tier is
written only when its serialized content changed (the
`JSON.stringify` comparison, which on these records coincides with
structural equality); returns whether either tier changed. -/
def updateValidationStatus (st : StoreState) (responseUrl : String)
    (validationStatus : ValidationStatus) : StoreState × Bool :=
  let updatedUrlResponses := st.storedResponses.map (applyStatus responseUrl validationStatus)
  let changedUrl : Bool := !(st.storedResponses = updatedUrlResponses : Bool)
  let st₁ := if changedUrl then { st with storedResponses := updatedUrlResponses } else st
  let updatedHtmlResponses := st.htmlResponses.map (applyStatus responseUrl validationStatus)
  let changedHtml : Bool := !(st.htmlResponses = updatedHtmlResponses : Bool)
  let st₂ := if changedHtml then { st₁ with htmlResponses := updatedHtmlResponses } else st₁
  (st₂, changedUrl || changedHtml)

/-- `BackgroundService.removeResponse`: filters the matching url out of
both tiers, writing a tier only when its length changed; returns whether
either tier shrank. -/
def removeResponse (st : StoreState) (responseUrl : String) : StoreState × Bool :=
  let updatedUrlResponses := st.storedResponses.filter (fun r => !(r.url == responseUrl))
  let removedUrl : Bool := !(st.storedResponses.length == updatedUrlResponses.length)
  let st₁ := if removedUrl then { st with storedResponses := updatedUrlResponses } else st
  let updatedHtmlResponses := st.htmlResponses.filter (fun r => !(r.url == responseUrl))
  let removedHtml : Bool := !(st.htmlResponses.length == updatedHtmlResponses.length)
  let st₂ := if removedHtml then { st₁ with htmlResponses := updatedHtmlResponses } else st₁
  (st₂, removedUrl || removedHtml)

/-- `BackgroundService.removeAllResponses`: writes the empty list to
both tiers and returns true. -/
def removeAllResponses (_st : StoreState) : StoreState × Bool :=
  (⟨[], []⟩, true)

/-- `BackgroundService.validateAllPendingResponses`: maps every
`pending` record of both tiers to `validated`, leaving all others
untouched; returns true. -/
def validateAllPendingResponses (st : StoreState) : StoreState × Bool :=
  (⟨st.storedResponses.map (fun r =>
      if r.validationStatus = some ValidationStatus.pending then
        { r with validationStatus := some ValidationStatus.validated } else r),
    st.htmlResponses.map (fun r =>
      if r.validationStatus = some ValidationStatus.pending then
        { r with validationStatus := some ValidationStatus.validated } else r)⟩,
   true)

/-- Outcome of the HTTP round-trip to `POST /api/process`: a 2xx
response with a CSV body, a non-2xx status, or a rejected fetch. -/
inductive HttpOutcome
  | success (csv : String)
  | httpError (status : Nat)
  | networkFailure (msg : String)
deriving DecidableEq, Repr

/-- The JSON body sent to `POST /api/process`: the urls sublist, the
htmls sublist, the prompt and the two mode flags. -/
structure ProcessRequestBody where
  urls : List String
  htmls : List (Option String)
  prompt : String
  crawl : Bool
  analysis_only : Bool
deriving DecidableEq, Repr

/-- The result object of the two submission operations. -/
structure SendResult where
  success : Bool
  error : Option String
  sent : Option Nat
  csvData : Option String
deriving DecidableEq, Repr

/-- `BackgroundService.sendValidatedResponsesToServer` (full submission,
`part_011` lines 523–611): gathers validated records of both tiers,
fails early when there are none, otherwise partitions them by `type`
into the urls/htmls sublists and performs one HTTP request. The middle
component is the request body, `none` when no request was issued. -/
def sendValidatedResponsesToServer (sess : SessionState) (st : StoreState)
    (outcome : HttpOutcome) : StoreState × Option ProcessRequestBody × SendResult :=
  let responses := getStoredResponses st
  let validatedResponses := responses.filter (fun r =>
    r.validationStatus = some ValidationStatus.validated)
  if validatedResponses.length = 0 then
    (st, none, ⟨false, some "No validated responses to send", none, none⟩)
  else
    let validatedUrls := validatedResponses.filter (fun r => r.type = RespType.url)
    let validatedHtmls := validatedResponses.filter (fun r => r.type = RespType.html)
    let body : ProcessRequestBody :=
      ⟨validatedUrls.map (fun r => r.url), validatedHtmls.map (fun r => r.html),
        sess.prompt, sess.crawlingMode, sess.analysisMode⟩
    match outcome with
    | HttpOutcome.success csv =>
        (st, some body, ⟨true, none, some validatedResponses.length, some csv⟩)
    | HttpOutcome.httpError status =>
        (st, some body, ⟨false, some ("Server error: " ++ toString status), none, none⟩)
    | HttpOutcome.networkFailure msg =>
        (st, some body, ⟨false, some msg, none, none⟩)

/-- `BackgroundService.verifySampleResponses` (sample submission,
`part_011` lines 613–702): identical to the full submission except that
the validated list is cut to its first three entries
(`.slice(0, 3)`) before the emptiness check and the partition. -/
def verifySampleResponses (sess : SessionState) (st : StoreState)
    (outcome : HttpOutcome) : StoreState × Option ProcessRequestBody × SendResult :=
  let responses := getStoredResponses st
  let validatedResponses := (responses.filter (fun r =>
    r.validationStatus = some ValidationStatus.validated)).take 3
  if validatedResponses.length = 0 then
    (st, none, ⟨false, some "No validated responses to send", none, none⟩)
  else
    let validatedUrls := validatedResponses.filter (fun r => r.type = RespType.url)
    let validatedHtmls := validatedResponses.filter (fun r => r.type = RespType.html)
    let body : ProcessRequestBody :=
      ⟨validatedUrls.map (fun r => r.url), validatedHtmls.map (fun r => r.html),
        sess.prompt, sess.crawlingMode, sess.analysisMode⟩
    match outcome with
    | HttpOutcome.success csv =>
        (st, some body, ⟨true, none, some validatedResponses.length, some csv⟩)
    | HttpOutcome.httpError status =>
        (st, some body, ⟨false, some ("Server error: " ++ toString status), none, none⟩)
    | HttpOutcome.networkFailure msg =>
        (st, some body, ⟨false, some msg, none, none⟩)

/-- `App.tsx handleToggleCrawling`: persists `crawlingMode := enabled`;
when enabling while `analysisMode` is on, also forces `analysisMode`
off. -/
def handleToggleCrawling (s : SessionState) (enabled : Bool) : SessionState :=
  let s₁ := { s with crawlingMode := enabled }
  if enabled && s.analysisMode then { s₁ with analysisMode := false } else s₁

/-- `App.tsx handleToggleAnalysis`: persists `analysisMode := enabled`;
when enabling while `crawlingMode` is on, also forces `crawlingMode`
off. -/
def handleToggleAnalysis (s : SessionState) (enabled : Bool) : SessionState :=
  let s₁ := { s with analysisMode := enabled }
  if enabled && s.crawlingMode then { s₁ with crawlingMode := false } else s₁

/-- The session-state invariant of §3 of the spec: `crawlingMode` and
`analysisMode` are never both on. -/
def modesExclusive (s : SessionState) : Prop :=
  ¬(s.crawlingMode = true ∧ s.analysisMode = true)

/-- The record returned by `ExtensionStorage.getStorageUsage`
(`storage.ts` lines 98–159). Byte counts and percentages are modelled
over ℚ; every value appearing in the claims is exactly representable in
the source's binary floating point as well. -/
structure StorageUsageInfo where
  bytesInUse : ℚ
  quotaBytes : ℚ
  percentageUsed : ℚ
  isLocal : Bool
deriving DecidableEq, Repr

/-- `ExtensionStorage.getStorageUsage`: quota 5242880 for the local
backend, 102400 for sync; `percentageUsed` is
`min (bytesInUse / quotaBytes * 100) 100` (the `Math.min(· , 100)` cap). -/
def getStorageUsage (bytesInUse : ℚ) (isLocal : Bool) : StorageUsageInfo :=
  let quotaBytes : ℚ := if isLocal then 5242880 else 102400
  let percentageUsed := bytesInUse / quotaBytes * 100
  ⟨bytesInUse, quotaBytes, min percentageUsed 100, isLocal⟩

/-- `App.tsx loadStorageUsage`: the caller-visible warning flag,
`setStorageWarning(result.storageInfo.percentageUsed > 80)`. -/
def loadStorageUsageWarning (percentageUsed : ℚ) : Bool :=
  percentageUsed > 80

/-- The size ceiling of `getRenderedHTML` (`htmlRenderUtils.ts`:
`const maxSize = 50000`). -/
def maxStoredHtmlSize : Nat := 50000

/-- The truncation marker appended by `getRenderedHTML`. -/
def truncationMarker : List Char := "<!-- [TRUNCATED FOR STORAGE] -->".data

/-- JS `str.lastIndexOf(c, i)` for a one-character search string, over a
character list: the greatest index `j ≤ i` holding `c`, or `none`
(JS `-1`) when there is no such index. -/
def lastIndexOfUpTo (l : List Char) (c : Char) : Nat → Option Nat
  | 0 => if l[0]? = some c then some 0 else none
  | i + 1 => if l[i + 1]? = some c then some (i + 1) else lastIndexOfUpTo l c i

/-- The size-ceiling step at the end of `getRenderedHTML`
(`htmlRenderUtils.ts` lines 400–422), applied to the sanitized snapshot:
when the cleaned HTML exceeds `maxSize`, the truncation point starts at
`maxSize` and is moved to just past the last `>` at or before position
`maxSize` provided that `>` lies strictly within the final 200
positions (`lastCloseTag > maxSize - 200`); the marker is appended. -/
def truncateRenderedHTML (cleanedHTML : List Char) : List Char :=
  if maxStoredHtmlSize < cleanedHTML.length then
    let truncatePoint :=
      match lastIndexOfUpTo cleanedHTML '>' maxStoredHtmlSize with
      | some lastCloseTag =>
          if maxStoredHtmlSize - 200 < lastCloseTag then lastCloseTag + 1
          else maxStoredHtmlSize
      | none => maxStoredHtmlSize
    cleanedHTML.take truncatePoint ++ truncationMarker
  else cleanedHTML

/-- The validated records of both tiers, in stored (merged) order — the
list gathered by both submission operations. -/
def validatedOf (st : StoreState) : List ScrapeResponse :=
  (getStoredResponses st).filter (fun r =>
    r.validationStatus = some ValidationStatus.validated)

/-- The sample selection of `verifySampleResponses`: the first three
validated records in stored order (`.slice(0, 3)`). -/
def sampleSelection (st : StoreState) : List ScrapeResponse :=
  (validatedOf st).take 3

/-- Claim C4 as stated, about one sanitized snapshot: an over-ceiling
snapshot is cut at the nearest preceding tag boundary (just past the
last `>` at or before the ceiling), ends with the marker, and is no
longer than ceiling + marker length. -/
def TruncationClaim (cleanedHTML : List Char) : Prop :=
  maxStoredHtmlSize < cleanedHTML.length →
    (truncateRenderedHTML cleanedHTML).length ≤
        maxStoredHtmlSize + truncationMarker.length ∧
    truncationMarker <:+ truncateRenderedHTML cleanedHTML ∧
    ∀ j, lastIndexOfUpTo cleanedHTML '>' maxStoredHtmlSize = some j →
      truncateRenderedHTML cleanedHTML =
        cleanedHTML.take (j + 1) ++ truncationMarker

/-! ## Helper lemmas -/

theorem map_self_iff {α : Type} (f : α → α) (l : List α) :
    l.map f = l ↔ ∀ x ∈ l, f x = x := by
  induction l with
  | nil => simp
  | cons a l ih => simp [ih]

theorem bang_decide_iff {P : Prop} [Decidable P] : (!decide P) = true ↔ ¬P := by
  by_cases h : P <;> simp [h]

theorem not_bang_decide {P : Prop} [Decidable P] (h : ¬(!decide P) = true) : P := by
  by_cases hp : P
  · exact hp
  · exact absurd (bang_decide_iff.mpr hp) h

theorem checkIfUrlRequiresAuthentication_eq (r : ProbeResponse) :
    checkIfUrlRequiresAuthentication r =
      (!responseOk r.status || optTruthy r.wwwAuthenticate) := by
  obtain ⟨status, location, www⟩ := r
  simp only [checkIfUrlRequiresAuthentication, responseOk]
  split
  · next h =>
    have h4 : status = 401 := by simpa using h
    subst h4; rfl
  · next h401 =>
    split
    · next h =>
      have h4 : status = 403 := by simpa using h
      subst h4; rfl
    · next h403 =>
      split
      · next h3 =>
        simp only [Bool.and_eq_true, decide_eq_true_eq] at h3
        obtain ⟨⟨h300, h400⟩, _⟩ := h3
        have h299 : decide (status ≤ 299) = false := by
          simp only [decide_eq_false_iff_not]; omega
        simp [h299]
      · next h3 =>
        split
        · next hww => simp [hww]
        · next hww =>
          have hw : optTruthy www = false := by
            revert hww; cases optTruthy www <;> simp
          split
          · next hok => simp [hok, hw]
          · next hok =>
            have hok' : (decide (200 ≤ status) && decide (status ≤ 299)) = false := by
              revert hok; cases (decide (200 ≤ status) && decide (status ≤ 299)) <;> simp
            simp [hok']

/-! ## Claim theorems -/

/-- C7: the mutual-exclusion invariant of `crawlingMode` / `analysisMode`
always holds after either toggle; enabling one while the other is on
forces the other off; and toggling both off from any state leaves both
flags simultaneously off. -/
theorem modeToggles_mutually_exclusive (s : SessionState) (enabled : Bool) :
    modesExclusive (handleToggleCrawling s enabled) ∧
    modesExclusive (handleToggleAnalysis s enabled) ∧
    (handleToggleCrawling s true).crawlingMode = true ∧
    (handleToggleCrawling s true).analysisMode = false ∧
    (handleToggleAnalysis s true).analysisMode = true ∧
    (handleToggleAnalysis s true).crawlingMode = false ∧
    (handleToggleCrawling (handleToggleAnalysis s false) false).crawlingMode = false ∧
    (handleToggleCrawling (handleToggleAnalysis s false) false).analysisMode = false := by
  obtain ⟨t, c, a, f, p⟩ := s
  cases c <;> cases a <;> cases enabled <;>
    simp [handleToggleCrawling, handleToggleAnalysis, modesExclusive]

/-- C5 counterexample: at a usage of exactly 80% of the sync quota
(81920 of 102400 bytes) `getStorageUsage` reports `percentageUsed = 80`,
but the popup's warning flag — `percentageUsed > 80`, a strict
comparison — is false, so exactly 80% does not trigger the warning. -/
theorem storageWarning_at_exactly_80 :
    (getStorageUsage 81920 false).percentageUsed = 80 ∧
    loadStorageUsageWarning (getStorageUsage 81920 false).percentageUsed = false := by
  have h0 : (81920 : ℚ) / 102400 * 100 = 80 := by norm_num
  have hp : (getStorageUsage 81920 false).percentageUsed = 80 := by
    show min ((81920 : ℚ) / 102400 * 100) 100 = 80
    rw [h0]
    exact min_eq_left (by norm_num)
  refine ⟨hp, ?_⟩
  rw [hp]
  simp [loadStorageUsageWarning]

/-- C5 amended: `percentageUsed` is capped at 100 for every byte count
and backend, and the caller-visible warning is raised exactly when the
reported percentage is strictly greater than 80. -/
theorem storageUsage_cap_and_warning_iff :
    (∀ (bytesInUse : ℚ) (isLocal : Bool),
      (getStorageUsage bytesInUse isLocal).percentageUsed ≤ 100) ∧
    (∀ p : ℚ, loadStorageUsageWarning p = true ↔ 80 < p) := by
  constructor
  · intro b l
    exact min_le_right _ _
  · intro p
    simp [loadStorageUsageWarning]

/-- C3 counterexample: a 302 response whose `Location` is
`https://example.com/home` (no login marker) and which carries no
`WWW-Authenticate` header is classified as not-requiring-auth by the
spec's reference definition but as requiring auth by the source probe,
which lets every 3xx fall through to the final auth-required return. -/
theorem specProbeClassify_mismatch :
    specProbeClassify (some ⟨302, some "https://example.com/home", none⟩) = false ∧
    probeClassify (some ⟨302, some "https://example.com/home", none⟩) = true := by
  constructor <;> decide

/-- C3 amended: the probe classifies a received response as requiring
authentication exactly when its status is outside 2xx or its
`WWW-Authenticate` header is present and non-empty — in particular every
3xx is auth-required regardless of `Location` (the case-sensitive
login/auth/signin test affects only logging) — and a network-level
failure is classified as not requiring auth. -/
theorem probeClassify_characterization :
    probeClassify none = false ∧
    ∀ r : ProbeResponse, probeClassify (some r) =
      (!responseOk r.status || optTruthy r.wwwAuthenticate) :=
  ⟨rfl, fun r => checkIfUrlRequiresAuthentication_eq r⟩

/-- C1: the session flag `forceHtmlStorage` is never consulted by
admission — `storeUrlForLater` is invariant under the flag — and at the
failing input (flag set, tracking on, fresh url, probe reports no auth,
no html argument) admission creates a url-only record and returns plain
success, so the content script performs no render capture. -/
theorem storeUrlForLater_ignores_forceHtmlStorage :
    (∀ (sess : SessionState) (st : StoreState) (url : String)
        (html : Option String) (probe : Option ProbeResponse) (b : Bool),
      storeUrlForLater { sess with forceHtmlStorage := b } st url html probe =
        storeUrlForLater sess st url html probe) ∧
    storeUrlForLater ⟨true, false, false, true, ""⟩ ⟨[], []⟩ "https://a.com" none
        (some ⟨200, none, none⟩) =
      (⟨[⟨"https://a.com", RespType.url, some ValidationStatus.pending, none⟩], []⟩,
        ⟨true, false, false, none⟩) ∧
    handleUrlChangeAction ⟨true, false, false, none⟩ = ContentAction.noCapture := by
  refine ⟨fun sess st url html probe b => rfl, by decide, rfl⟩

/-- C2 counterexample: a record for `https://a.com` exists, tracking is
enabled, yet admission of that very url without html, when the probe
reports 401, fails with the requires-authentication result instead of
succeeding as a no-op — the auth gate runs before the dedup check. -/
theorem storeUrlForLater_existing_requiresAuth :
    (getStoredResponses
        ⟨[⟨"https://a.com", RespType.url, some ValidationStatus.pending, none⟩], []⟩).any
      (fun r => r.url == "https://a.com") = true ∧
    (storeUrlForLater ⟨true, false, false, false, ""⟩
        ⟨[⟨"https://a.com", RespType.url, some ValidationStatus.pending, none⟩], []⟩
        "https://a.com" none (some ⟨401, none, none⟩)).2 =
      ⟨false, true, false, some "URL requires authentication"⟩ := by
  constructor <;> decide

/-- C2 amended: for a url that already has a record and with tracking
enabled, admission never changes the store (no duplicate is created,
also on the requires-authentication path), and it succeeds as a no-op
provided the auth gate passes — i.e. when `html` is truthy or the probe
does not classify the url as requiring authentication. -/
theorem storeUrlForLater_dedup_noop (sess : SessionState) (st : StoreState)
    (url : String) (html : Option String) (probe : Option ProbeResponse)
    (htrack : sess.urlTrackingEnabled = true)
    (hex : (getStoredResponses st).any (fun r => r.url == url) = true) :
    (storeUrlForLater sess st url html probe).1 = st ∧
    ((optTruthy html || !probeClassify probe) = true →
      (storeUrlForLater sess st url html probe).2 = ⟨true, false, false, none⟩) := by
  by_cases hauth : (!optTruthy html && probeClassify probe) = true
  · constructor
    · simp [storeUrlForLater, htrack, hauth]
    · intro hpass
      exfalso
      simp only [Bool.and_eq_true, Bool.not_eq_true'] at hauth
      obtain ⟨h1, h2⟩ := hauth
      simp [h1, h2] at hpass
  · have hauth' : (!optTruthy html && probeClassify probe) = false := by
      revert hauth; cases (!optTruthy html && probeClassify probe) <;> simp
    constructor
    · simp [storeUrlForLater, htrack, hauth', hex]
    · intro _
      simp [storeUrlForLater, htrack, hauth', hex]

/-- C2 witness: concrete no-op admission of an already-stored url with
tracking enabled and a network-failed probe (classified not-requiring-auth). -/
theorem storeUrlForLater_dedup_noop_witness :
    (storeUrlForLater ⟨true, false, false, false, ""⟩
        ⟨[⟨"https://a.com", RespType.url, some ValidationStatus.pending, none⟩], []⟩
        "https://a.com" none none).1 =
      ⟨[⟨"https://a.com", RespType.url, some ValidationStatus.pending, none⟩], []⟩ ∧
    (storeUrlForLater ⟨true, false, false, false, ""⟩
        ⟨[⟨"https://a.com", RespType.url, some ValidationStatus.pending, none⟩], []⟩
        "https://a.com" none none).2 = ⟨true, false, false, none⟩ := by
  have h := storeUrlForLater_dedup_noop ⟨true, false, false, false, ""⟩
    ⟨[⟨"https://a.com", RespType.url, some ValidationStatus.pending, none⟩], []⟩
    "https://a.com" none none rfl (by decide)
  exact ⟨h.1, h.2 (by decide)⟩

/-- C8: neither submission operation mutates the persisted record set —
for every store, session and HTTP outcome (2xx, non-2xx, network
failure) the state returned by `sendValidatedResponsesToServer` and by
`verifySampleResponses` is the input state, so every record keeps its
url, kind, payload and validation status. -/
theorem submission_preserves_records (sess : SessionState) (st : StoreState)
    (outcome : HttpOutcome) :
    (sendValidatedResponsesToServer sess st outcome).1 = st ∧
    (verifySampleResponses sess st outcome).1 = st := by
  refine ⟨?_, ?_⟩
  · unfold sendValidatedResponsesToServer
    split <;> (first | rfl | (dsimp only; split <;> rfl))
  · unfold verifySampleResponses
    split <;> (first | rfl | (dsimp only; split <;> rfl))

/-- C9: `removeResponse` filters the url out of whichever tier holds it
(the final state is both tiers filtered), and returns true exactly when
at least one record with that url was present in the merged store — so
an unknown url yields false and, the filters then being identities, no
state change. -/
theorem removeResponse_spec (st : StoreState) (url : String) :
    (removeResponse st url).1 =
      ⟨st.storedResponses.filter (fun r => !(r.url == url)),
        st.htmlResponses.filter (fun r => !(r.url == url))⟩ ∧
    ((removeResponse st url).2 = true ↔ ∃ r ∈ getStoredResponses st, r.url = url) := by
  have key : ∀ l : List ScrapeResponse,
      ((!(l.length == (l.filter (fun r => !(r.url == url))).length)) = true ↔
        ∃ r ∈ l, r.url = url) ∧
      ((!(l.length == (l.filter (fun r => !(r.url == url))).length)) = false →
        l.filter (fun r => !(r.url == url)) = l) := by
    intro l
    have hiff : (l.filter (fun r => !(r.url == url))).length = l.length ↔
        ∀ r ∈ l, r.url ≠ url := by
      rw [List.filter_length_eq_length]
      constructor
      · intro h r hr
        have := h r hr
        simpa using this
      · intro h r hr
        simpa using h r hr
    constructor
    · simp only [Bool.not_eq_true', beq_eq_false_iff_ne, ne_eq]
      constructor
      · intro hne
        by_contra hno
        push_neg at hno
        exact hne ((hiff.mpr hno).symm)
      · rintro ⟨r, hr, hurl⟩ heq
        exact (hiff.mp heq.symm) r hr hurl
    · intro hfalse
      have heq : l.length = (l.filter (fun r => !(r.url == url))).length := by
        simpa using hfalse
      exact List.filter_eq_self.mpr fun r hr => by
        simpa using (hiff.mp heq.symm) r hr
  obtain ⟨l₁, l₂⟩ := st
  obtain ⟨k₁, k₁'⟩ := key l₁
  obtain ⟨k₂, k₂'⟩ := key l₂
  by_cases h₁ : (!(l₁.length == (l₁.filter (fun r => !(r.url == url))).length)) = true <;>
    by_cases h₂ : (!(l₂.length == (l₂.filter (fun r => !(r.url == url))).length)) = true
  · constructor
    · simp [removeResponse, h₁, h₂]
    · simp only [removeResponse, h₁, h₂, if_true, Bool.or_self, true_iff]
      simp only [getStoredResponses, List.mem_append]
      obtain ⟨r, hr, hurl⟩ := k₁.mp h₁
      exact ⟨r, Or.inl hr, hurl⟩
  · have h₂' := Bool.not_eq_true _ ▸ h₂
    have h₂f : (!(l₂.length == (l₂.filter (fun r => !(r.url == url))).length)) = false := by
      revert h₂; cases (!(l₂.length == (l₂.filter (fun r => !(r.url == url))).length)) <;> simp
    constructor
    · simp [removeResponse, h₁, h₂f, k₂' h₂f]
    · simp only [removeResponse, h₁, h₂f, if_true, if_false, Bool.or_false, true_iff]
      simp only [getStoredResponses, List.mem_append]
      obtain ⟨r, hr, hurl⟩ := k₁.mp h₁
      exact ⟨r, Or.inl hr, hurl⟩
  · have h₁f : (!(l₁.length == (l₁.filter (fun r => !(r.url == url))).length)) = false := by
      revert h₁; cases (!(l₁.length == (l₁.filter (fun r => !(r.url == url))).length)) <;> simp
    constructor
    · simp [removeResponse, h₁f, h₂, k₁' h₁f]
    · simp only [removeResponse, h₁f, h₂, if_true, if_false, Bool.false_or, true_iff]
      simp only [getStoredResponses, List.mem_append]
      obtain ⟨r, hr, hurl⟩ := k₂.mp h₂
      exact ⟨r, Or.inr hr, hurl⟩
  · have h₁f : (!(l₁.length == (l₁.filter (fun r => !(r.url == url))).length)) = false := by
      revert h₁; cases (!(l₁.length == (l₁.filter (fun r => !(r.url == url))).length)) <;> simp
    have h₂f : (!(l₂.length == (l₂.filter (fun r => !(r.url == url))).length)) = false := by
      revert h₂; cases (!(l₂.length == (l₂.filter (fun r => !(r.url == url))).length)) <;> simp
    constructor
    · simp [removeResponse, h₁f, h₂f, k₁' h₁f, k₂' h₂f]
    · simp only [removeResponse, h₁f, h₂f, if_false, Bool.or_self, Bool.false_eq_true,
        false_iff]
      simp only [getStoredResponses, List.mem_append]
      rintro ⟨r, hr | hr, hurl⟩
      · exact absurd h₁f (by simp [k₁.mpr ⟨r, hr, hurl⟩])
      · exact absurd h₂f (by simp [k₂.mpr ⟨r, hr, hurl⟩])

theorem updateStatus_fixed_iff (url : String) (vs : ValidationStatus)
    (x : ScrapeResponse) :
    applyStatus url vs x = x ↔ (x.url = url → x.validationStatus = some vs) := by
  rcases x with ⟨u, t, v, h⟩
  by_cases hu : u = url
  · subst hu
    simp [applyStatus, ScrapeResponse.mk.injEq, eq_comm]
  · simp [applyStatus, hu]

/-- C10 counterexample: updating a record that is already `validated` to
`validated` again leaves the serialized tiers unchanged, so the
`JSON.stringify` comparison suppresses the write and the operation
returns false — not true as the claim states. -/
theorem updateValidationStatus_noop_returns_false :
    (updateValidationStatus
        ⟨[⟨"https://a.com", RespType.url, some ValidationStatus.validated, none⟩], []⟩
        "https://a.com" ValidationStatus.validated).2 = false := by
  decide

/-- C10 amended: `updateValidationStatus` maps every record with the
given url (in both tiers) to the new status, and returns true exactly
when some record with that url did not already carry that status — so
validated→invalid and invalid→validated both return true, while
updating to the status a record already has, or naming an unknown url,
returns false. -/
theorem updateValidationStatus_spec (st : StoreState) (url : String)
    (vs : ValidationStatus) :
    (updateValidationStatus st url vs).1 =
      ⟨st.storedResponses.map (applyStatus url vs),
        st.htmlResponses.map (applyStatus url vs)⟩ ∧
    ((updateValidationStatus st url vs).2 = true ↔
      ∃ r ∈ getStoredResponses st, r.url = url ∧ r.validationStatus ≠ some vs) := by
  have hstep : ∀ l : List ScrapeResponse,
      ¬(l = l.map (applyStatus url vs)) ↔
        ∃ x ∈ l, x.url = url ∧ x.validationStatus ≠ some vs := by
    intro l
    rw [eq_comm, map_self_iff]
    simp only [updateStatus_fixed_iff url vs]
    push_neg
    rfl
  obtain ⟨l₁, l₂⟩ := st
  refine ⟨?_, ?_⟩
  · unfold updateValidationStatus
    dsimp only
    split
    · split
      · rfl
      · next h₁ =>
        exact congrArg (fun x => StoreState.mk x (l₂.map (applyStatus url vs)))
          (not_bang_decide h₁)
    · next h₂ =>
      have hp₂ := not_bang_decide h₂
      split
      · exact congrArg (fun x => StoreState.mk (l₁.map (applyStatus url vs)) x) hp₂
      · next h₁ =>
        exact congrArg₂ StoreState.mk (not_bang_decide h₁) hp₂
  · have hsnd : (updateValidationStatus ⟨l₁, l₂⟩ url vs).2 =
        ((!decide (l₁ = l₁.map (applyStatus url vs))) ||
          (!decide (l₂ = l₂.map (applyStatus url vs)))) := rfl
    rw [hsnd]
    constructor
    · intro h
      rw [Bool.or_eq_true] at h
      rcases h with h | h
      · obtain ⟨x, hx, hcond⟩ := (hstep l₁).mp (bang_decide_iff.mp h)
        exact ⟨x, List.mem_append.mpr (Or.inl hx), hcond⟩
      · obtain ⟨x, hx, hcond⟩ := (hstep l₂).mp (bang_decide_iff.mp h)
        exact ⟨x, List.mem_append.mpr (Or.inr hx), hcond⟩
    · rintro ⟨r, hr, hurl, hvs⟩
      rcases List.mem_append.mp hr with hr | hr
      · rw [Bool.or_eq_true]
        exact Or.inl (bang_decide_iff.mpr ((hstep l₁).mpr ⟨r, hr, hurl, hvs⟩))
      · rw [Bool.or_eq_true]
        exact Or.inr (bang_decide_iff.mpr ((hstep l₂).mpr ⟨r, hr, hurl, hvs⟩))

/-- C6: the sample submission issues no request exactly when there are
no validated records; otherwise the request body consists of the urls
and htmls of the first three validated records in stored (merged) order
— `min N 3` records in total, partitioned by kind into the two
sublists: the two filtered sublists together are a permutation of the
selection, and the selection is a prefix of the validated list. -/
theorem verifySampleResponses_sends_first_three (sess : SessionState)
    (st : StoreState) (outcome : HttpOutcome) :
    ((verifySampleResponses sess st outcome).2.1 = none ↔
      (validatedOf st).length = 0) ∧
    ∀ b : ProcessRequestBody, (verifySampleResponses sess st outcome).2.1 = some b →
      b.urls.length + b.htmls.length = min (validatedOf st).length 3 ∧
      b.urls = ((sampleSelection st).filter (fun r => r.type = RespType.url)).map
        (fun r => r.url) ∧
      b.htmls = ((sampleSelection st).filter (fun r => r.type = RespType.html)).map
        (fun r => r.html) ∧
      List.Perm
        (((sampleSelection st).filter (fun r => r.type = RespType.url)) ++
          ((sampleSelection st).filter (fun r => r.type = RespType.html)))
        (sampleSelection st) ∧
      validatedOf st = sampleSelection st ++ (validatedOf st).drop 3 := by
  have hpart : ∀ l : List ScrapeResponse,
      List.Perm ((l.filter (fun r => decide (r.type = RespType.url))) ++
        (l.filter (fun r => decide (r.type = RespType.html)))) l := by
    intro l
    have hfun : (fun r : ScrapeResponse => decide (r.type = RespType.html)) =
        (fun r : ScrapeResponse => !decide (r.type = RespType.url)) := by
      funext r
      cases hr : r.type <;> simp [hr]
    rw [hfun]
    exact List.filter_append_perm _ l
  have hsel_len : (sampleSelection st).length = min 3 (validatedOf st).length := by
    simp [sampleSelection]
  have hbody : (verifySampleResponses sess st outcome).2.1 =
      (if (sampleSelection st).length = 0 then none else
        some ⟨((sampleSelection st).filter (fun r => r.type = RespType.url)).map
            (fun r => r.url),
          ((sampleSelection st).filter (fun r => r.type = RespType.html)).map
            (fun r => r.html),
          sess.prompt, sess.crawlingMode, sess.analysisMode⟩) := by
    unfold verifySampleResponses
    cases outcome <;> dsimp only <;> split <;> rename_i hc <;>
      first
      | rw [if_pos (show (sampleSelection st).length = 0 from hc)]
      | (rw [if_neg (show ¬(sampleSelection st).length = 0 from hc)]; rfl)
  constructor
  · rw [hbody]
    split
    · next h =>
      rw [hsel_len] at h
      constructor
      · intro _
        omega
      · intro _
        rfl
    · next h =>
      rw [hsel_len] at h
      constructor
      · intro hcon
        exact absurd hcon (by simp)
      · intro h0
        exfalso
        omega
  · intro b hb
    rw [hbody] at hb
    split at hb
    · exact absurd hb (by simp)
    · next h =>
      injection hb with hb
      subst hb
      refine ⟨?_, rfl, rfl, hpart _, (List.take_append_drop 3 (validatedOf st)).symm⟩
      rw [List.length_map, List.length_map]
      have hp := (hpart (sampleSelection st)).length_eq
      rw [List.length_append] at hp
      rw [hp, hsel_len, Nat.min_comm]

/-- C6 witness: a concrete population of five records (three validated
urls and pendings in the sync tier, two validated htmls in the local
tier) on which the sample submission sends min(4, 3) = 3 records. -/
theorem verifySampleResponses_sends_first_three_witness :
    (["https://a.com", "https://c.com"] : List String).length +
      ([some "<p>d</p>"] : List (Option String)).length =
      min (validatedOf
        ⟨[⟨"https://a.com", RespType.url, some ValidationStatus.validated, none⟩,
          ⟨"https://b.com", RespType.url, some ValidationStatus.pending, none⟩,
          ⟨"https://c.com", RespType.url, some ValidationStatus.validated, none⟩],
        [⟨"https://d.com", RespType.html, some ValidationStatus.validated,
            some "<p>d</p>"⟩,
          ⟨"https://e.com", RespType.html, some ValidationStatus.validated,
            some "<p>e</p>"⟩]⟩).length 3 :=
  ((verifySampleResponses_sends_first_three ⟨true, false, false, false, ""⟩
      ⟨[⟨"https://a.com", RespType.url, some ValidationStatus.validated, none⟩,
        ⟨"https://b.com", RespType.url, some ValidationStatus.pending, none⟩,
        ⟨"https://c.com", RespType.url, some ValidationStatus.validated, none⟩],
      [⟨"https://d.com", RespType.html, some ValidationStatus.validated,
          some "<p>d</p>"⟩,
        ⟨"https://e.com", RespType.html, some ValidationStatus.validated,
          some "<p>e</p>"⟩]⟩ (HttpOutcome.success "csv")).2
    ⟨["https://a.com", "https://c.com"], [some "<p>d</p>"], "", false, false⟩
    (by decide)).1

theorem lastIndexOfUpTo_succ (l : List Char) (c : Char) (i : Nat) :
    lastIndexOfUpTo l c (i + 1) =
      if l[i + 1]? = some c then some (i + 1) else lastIndexOfUpTo l c i := rfl

theorem lastIndexOfUpTo_eq_some (l : List Char) (c : Char) :
    ∀ i j, lastIndexOfUpTo l c i = some j → l[j]? = some c ∧ j ≤ i := by
  intro i
  induction i with
  | zero =>
    intro j h
    unfold lastIndexOfUpTo at h
    split at h
    · next hg =>
      injection h with h
      subst h
      exact ⟨hg, Nat.le_refl _⟩
    · exact Option.noConfusion h
  | succ i ih =>
    intro j h
    rw [lastIndexOfUpTo_succ] at h
    split at h
    · next hg =>
      injection h with h
      subst h
      exact ⟨hg, Nat.le_refl _⟩
    · obtain ⟨h1, h2⟩ := ih j h
      exact ⟨h1, h2.trans (Nat.le_succ i)⟩

theorem lastIndexOfUpTo_eq_of (l : List Char) (c : Char) :
    ∀ i j, j ≤ i → l[j]? = some c →
      (∀ k, j < k → k ≤ i → l[k]? ≠ some c) →
      lastIndexOfUpTo l c i = some j := by
  intro i
  induction i with
  | zero =>
    intro j hj hget _
    have hj0 : j = 0 := Nat.le_zero.mp hj
    subst hj0
    unfold lastIndexOfUpTo
    rw [if_pos hget]
  | succ i ih =>
    intro j hj hget hnone
    rw [lastIndexOfUpTo_succ]
    by_cases hk : l[i + 1]? = some c
    · have hji : j = i + 1 := by
        by_contra hne
        exact hnone (i + 1) (Nat.lt_of_le_of_ne hj hne) (Nat.le_refl _) hk
      rw [if_pos hk, hji]
    · rw [if_neg hk]
      have hj' : j ≤ i := by
        rcases Nat.lt_or_ge j (i + 1) with hlt | hge
        · omega
        · exfalso
          have hji : j = i + 1 := Nat.le_antisymm hj hge
          subst hji
          exact hk hget
      exact ih j hj' hget fun k h1 h2 => hnone k h1 (h2.trans (Nat.le_succ i))

theorem truncateRenderedHTML_of_found (l : List Char) (j : Nat)
    (hlen : maxStoredHtmlSize < l.length)
    (hfind : lastIndexOfUpTo l '>' maxStoredHtmlSize = some j) :
    truncateRenderedHTML l =
      l.take (if maxStoredHtmlSize - 200 < j then j + 1 else maxStoredHtmlSize) ++
        truncationMarker := by
  unfold truncateRenderedHTML
  rw [if_pos hlen, hfind]

theorem truncateRenderedHTML_of_none (l : List Char)
    (hlen : maxStoredHtmlSize < l.length)
    (hfind : lastIndexOfUpTo l '>' maxStoredHtmlSize = none) :
    truncateRenderedHTML l = l.take maxStoredHtmlSize ++ truncationMarker := by
  unfold truncateRenderedHTML
  rw [if_pos hlen, hfind]

/-- C4 counterexample. First input: fifty thousand `x` followed by `>z` —
the last `>` at or before the ceiling sits exactly at position 50000, the
cut is one past it, and the result is 50033 characters, exceeding
ceiling + marker length (50032). Second input: `<a>` followed by fifty
thousand `x` — the last `>` at or before the ceiling is at position 2,
outside the 200-character window, so the code cuts at position 50000 in
the middle of text, not at the tag boundary the claim requires. -/
theorem truncationClaim_counterexample :
    ¬ TruncationClaim (List.replicate 50000 'x' ++ ['>', 'z']) ∧
    ¬ TruncationClaim ('<' :: 'a' :: '>' :: List.replicate 50000 'x') := by
  have hms : maxStoredHtmlSize = 50000 := rfl
  have hmk : truncationMarker.length = 32 := rfl
  constructor
  · intro hclaim
    have hlen : maxStoredHtmlSize < (List.replicate 50000 'x' ++ ['>', 'z']).length := by
      rw [List.length_append, List.length_replicate]
      decide
    have hget : (List.replicate 50000 'x' ++ ['>', 'z'])[50000]? = some '>' := by
      rw [List.getElem?_append_right (by rw [List.length_replicate])]
      rw [List.length_replicate]
      decide
    have hfind : lastIndexOfUpTo (List.replicate 50000 'x' ++ ['>', 'z']) '>'
        maxStoredHtmlSize = some 50000 :=
      lastIndexOfUpTo_eq_of _ '>' maxStoredHtmlSize 50000 (Nat.le_refl _) hget
        (fun k h1 h2 _ => by omega)
    have heq := truncateRenderedHTML_of_found _ 50000 hlen hfind
    rw [if_pos (by decide)] at heq
    have hlength : (truncateRenderedHTML (List.replicate 50000 'x' ++ ['>', 'z'])).length =
        50033 := by
      rw [heq, List.length_append, List.length_take, List.length_append,
        List.length_replicate, hmk]
      rfl
    obtain ⟨hbound, -, -⟩ := hclaim hlen
    rw [hlength, hms, hmk] at hbound
    omega
  · intro hclaim
    have hlen : maxStoredHtmlSize < ('<' :: 'a' :: '>' :: List.replicate 50000 'x').length := by
      rw [List.length_cons, List.length_cons, List.length_cons, List.length_replicate]
      decide
    have hsplit : ('<' :: 'a' :: '>' :: List.replicate 50000 'x') =
        ['<', 'a', '>'] ++ List.replicate 50000 'x' := rfl
    have hget : ('<' :: 'a' :: '>' :: List.replicate 50000 'x')[2]? = some '>' := by
      rw [hsplit, List.getElem?_append_left (by decide)]
      decide
    have hnone : ∀ k, 2 < k → k ≤ maxStoredHtmlSize →
        ('<' :: 'a' :: '>' :: List.replicate 50000 'x')[k]? ≠ some '>' := by
      intro k h2 h5 hk
      have h3le : (['<', 'a', '>'] : List Char).length ≤ k := by
        simp only [List.length_cons, List.length_nil]
        omega
      rw [hsplit, List.getElem?_append_right h3le] at hk
      rw [show (['<', 'a', '>'] : List Char).length = 3 from rfl] at hk
      rw [List.getElem?_replicate, if_pos (by omega)] at hk
      exact absurd (Option.some.inj hk) (by decide)
    have hfind : lastIndexOfUpTo ('<' :: 'a' :: '>' :: List.replicate 50000 'x') '>'
        maxStoredHtmlSize = some 2 :=
      lastIndexOfUpTo_eq_of _ '>' maxStoredHtmlSize 2 (by omega) hget hnone
    obtain ⟨-, -, hthird⟩ := hclaim hlen
    have hclaimed := hthird 2 hfind
    have heq := truncateRenderedHTML_of_found _ 2 hlen hfind
    rw [if_neg (by decide)] at heq
    have hcon : (('<' :: 'a' :: '>' :: List.replicate 50000 'x').take (2 + 1) ++
          truncationMarker).length =
        (('<' :: 'a' :: '>' :: List.replicate 50000 'x').take maxStoredHtmlSize ++
          truncationMarker).length := by
      rw [← hclaimed, ← heq]
    rw [List.length_append, List.length_append, List.length_take, List.length_take] at hcon
    rw [List.length_cons, List.length_cons, List.length_cons, List.length_replicate] at hcon
    rw [hms] at hcon
    omega

/-- C4 amended: an over-ceiling sanitized snapshot always ends with the
truncation marker and its length is at most ceiling + marker length + 1;
it is cut either exactly at the 50000-character ceiling, or — only when
the last `>` at or before the ceiling lies strictly within the final 200
positions — one character past that `>` (which is position ceiling + 1
when the ceiling-position character itself is `>`, the one case
exceeding the claimed ceiling + marker bound, by one). -/
theorem truncateRenderedHTML_spec (cleanedHTML : List Char)
    (h : maxStoredHtmlSize < cleanedHTML.length) :
    truncationMarker <:+ truncateRenderedHTML cleanedHTML ∧
    (truncateRenderedHTML cleanedHTML).length ≤
      maxStoredHtmlSize + truncationMarker.length + 1 ∧
    ∃ t, t ≤ maxStoredHtmlSize + 1 ∧
      truncateRenderedHTML cleanedHTML = cleanedHTML.take t ++ truncationMarker ∧
      (t = maxStoredHtmlSize ∨
        (cleanedHTML[t - 1]? = some '>' ∧ maxStoredHtmlSize - 200 < t - 1 ∧
          t - 1 ≤ maxStoredHtmlSize)) := by
  cases hfind : lastIndexOfUpTo cleanedHTML '>' maxStoredHtmlSize with
  | none =>
    have heq := truncateRenderedHTML_of_none cleanedHTML h hfind
    refine ⟨by rw [heq]; exact List.suffix_append _ _, ?_,
      maxStoredHtmlSize, by omega, heq, Or.inl rfl⟩
    rw [heq, List.length_append, List.length_take]
    have hmin : min maxStoredHtmlSize cleanedHTML.length ≤ maxStoredHtmlSize :=
      Nat.min_le_left _ _
    omega
  | some j =>
    obtain ⟨hget, hle⟩ := lastIndexOfUpTo_eq_some cleanedHTML '>' maxStoredHtmlSize j hfind
    have heq := truncateRenderedHTML_of_found cleanedHTML j h hfind
    by_cases hcond : maxStoredHtmlSize - 200 < j
    · rw [if_pos hcond] at heq
      refine ⟨by rw [heq]; exact List.suffix_append _ _, ?_,
        j + 1, by omega, heq, Or.inr ⟨by simpa using hget, by omega, by omega⟩⟩
      rw [heq, List.length_append, List.length_take]
      have hmin : min (j + 1) cleanedHTML.length ≤ j + 1 := Nat.min_le_left _ _
      omega
    · rw [if_neg hcond] at heq
      refine ⟨by rw [heq]; exact List.suffix_append _ _, ?_,
        maxStoredHtmlSize, by omega, heq, Or.inl rfl⟩
      rw [heq, List.length_append, List.length_take]
      have hmin : min maxStoredHtmlSize cleanedHTML.length ≤ maxStoredHtmlSize :=
        Nat.min_le_left _ _
      omega

/-- C4 witness: a 50001-character snapshot of `x`s (no tag boundary at
all) is over the ceiling, and the amended truncation bounds hold for it. -/
theorem truncateRenderedHTML_spec_witness :
    maxStoredHtmlSize < (List.replicate 50001 'x').length ∧
    (truncationMarker <:+ truncateRenderedHTML (List.replicate 50001 'x') ∧
      (truncateRenderedHTML (List.replicate 50001 'x')).length ≤
        maxStoredHtmlSize + truncationMarker.length + 1 ∧
      ∃ t, t ≤ maxStoredHtmlSize + 1 ∧
        truncateRenderedHTML (List.replicate 50001 'x') =
          (List.replicate 50001 'x').take t ++ truncationMarker ∧
        (t = maxStoredHtmlSize ∨
          ((List.replicate 50001 'x')[t - 1]? = some '>' ∧
            maxStoredHtmlSize - 200 < t - 1 ∧ t - 1 ≤ maxStoredHtmlSize))) :=
  ⟨by rw [List.length_replicate]; decide,
    truncateRenderedHTML_spec (List.replicate 50001 'x')
      (by rw [List.length_replicate]; decide)⟩

end Csp
